import Mathlib

/-!
Verification of the credential lifecycle and request-authorization subsystem
of the UserProfileApp repository: registration and login routes, the JWT
authorization middleware, the profile routes, and the Mongoose User model
with its bcrypt pre-save hook.

Strings are modelled as `List Char` (the `Str` abbreviation) so that all
definitions compute by plain structural recursion; `str` injects Lean
string literals.
-/

/-- Character-list strings: the model of JavaScript strings. -/
abbrev Str := List Char

/-- Injects a Lean string literal into the `Str` model. -/
def str (s : String) : Str := s.data

/-- Splits a character list on a separator character, mirroring
JavaScript's `String.prototype.split` with a single-character separator. -/
def splitOnChar : Str → Char → List Str
  | [], _ => [[]]
  | c :: rest, sep =>
    match splitOnChar rest sep with
    | h :: t => if c = sep then [] :: h :: t else (c :: h) :: t
    | [] => [[c]]

/-- Removes leading and trailing whitespace, mirroring
JavaScript's `String.prototype.trim` / express-validator's trim sanitizer. -/
def trimS (l : Str) : Str :=
  ((l.dropWhile Char.isWhitespace).reverse.dropWhile Char.isWhitespace).reverse

/-- Tests whether the first list is a prefix of the second, mirroring
JavaScript's `String.prototype.startsWith`. -/
def strStartsWith : Str → Str → Bool
  | _, [] => true
  | [], _ :: _ => false
  | a :: as, b :: bs => a == b && strStartsWith as bs

/-- Character class `[^\s@]` of EMAIL_REGEX in routes/auth.js and
routes/profile.js: any character that is not whitespace and not `@`. -/
def isEmailChar (c : Char) : Bool := !c.isWhitespace && c != '@'

/-- EMAIL_REGEX of routes/auth.js and routes/profile.js:
`/^[^\s@]+@[^\s@]+\.[^\s@]+$/`.  The string must be one or more
non-space-non-`@` characters, an `@`, then a domain that decomposes as
`[^\s@]+ '.' [^\s@]+`; since `.` itself lies in the class, the domain
condition is: all characters in the class and a dot at an interior
position. -/
def matchesEmail (s : Str) : Bool :=
  match splitOnChar s '@' with
  | [loc, dom] =>
    !loc.isEmpty && loc.all isEmailChar && dom.all isEmailChar &&
      ((dom.drop 1).dropLast).contains '.'
  | _ => false

/-- Character class `[0-9\s\-()]` of PHONE_REGEX. -/
def isPhoneChar (c : Char) : Bool :=
  c.isDigit || c.isWhitespace || c == '-' || c == '(' || c == ')'

/-- PHONE_REGEX of routes/auth.js and routes/profile.js:
`/^\+?[0-9\s\-()]{7,15}$/`: an optional leading `+`, then 7 to 15
characters from the class. -/
def matchesPhone (s : Str) : Bool :=
  let rest := match s with
    | '+' :: t => t
    | l => l
  decide (7 ≤ rest.length) && decide (rest.length ≤ 15) && rest.all isPhoneChar

/-- Numeric value of a list of decimal digit characters. -/
def natOfDigits (l : Str) : Nat :=
  l.foldl (fun a c => a * 10 + (c.toNat - 48)) 0

/-- Decimal digit characters of a natural number, most significant first;
the first argument is recursion fuel. -/
def digitsAux : Nat → Nat → Str
  | 0, _ => []
  | fuel + 1, n =>
    if n < 10 then [Char.ofNat (48 + n)]
    else digitsAux fuel (n / 10) ++ [Char.ofNat (48 + n % 10)]

/-- Decimal representation of a natural number. -/
def natToChars (n : Nat) : Str := digitsAux (n + 1) n

/-- Modelled from the spec: the ISO-8601 date check performed by
express-validator's `isISO8601` (validator.js, an external library not in
the repository).  The spec requires only that `dateOfBirth`, "when
present, must parse as a valid calendar date (ISO-8601 accepted)"; the
model accepts `YYYY-MM-DD` with a plausible month and day. -/
def isISO8601 (s : Str) : Bool :=
  match splitOnChar s '-' with
  | [y, m, d] =>
    decide (y.length = 4) && decide (m.length = 2) && decide (d.length = 2) &&
      (y ++ m ++ d).all Char.isDigit &&
      decide (1 ≤ natOfDigits m) && decide (natOfDigits m ≤ 12) &&
      decide (1 ≤ natOfDigits d) && decide (natOfDigits d ≤ 31)
  | _ => false

/-- JSON values occurring in this subsystem's response bodies: strings,
numbers, `null`, and the express-validator error array (each element
carrying a field path and a message). -/
inductive JVal where
  | jstr (s : Str)
  | jnum (n : Nat)
  | jnull
  | jerrs (es : List (Str × Str))
deriving DecidableEq, Repr

/-- An HTTP response: status code and JSON object body as a key-value
list. -/
structure Response where
  status : Nat
  body : List (Str × JVal)
deriving DecidableEq, Repr

/-- Modelled from the spec: the bcrypt hash of the external bcryptjs
library (not in the repository).  The spec's Secret Hasher is a salted
one-way transform: "two calls to `hash` on identical input produce
different outputs, and `verify` remains true regardless."  The model
operates on byte lists; the output carries the `$2a$` format prefix, the
salt, and a salt-dependent digest of the plaintext bytes. -/
def bcryptHash (salt : Nat) (pw : List Nat) : List Nat :=
  0x24 :: 0x32 :: 0x61 :: 0x24 :: salt :: pw.map (fun b => (b + salt + 1) % 256)

/-- Modelled from the spec: bcrypt's `compare` (bcryptjs external
library): reads the salt back out of the stored hash, recomputes the
digest of the candidate plaintext under that salt, and compares. -/
def bcryptCompare (pw : List Nat) (stored : List Nat) : Bool :=
  match stored with
  | 0x24 :: 0x32 :: 0x61 :: 0x24 :: salt :: digest =>
    digest == pw.map (fun b => (b + salt + 1) % 256)
  | _ => false

/-- Byte list of a model string, for feeding passwords to bcrypt. -/
def strBytes (s : Str) : List Nat := s.map Char.toNat

/-- A stored user document, following the Mongoose schema of
models/User.js: required unique `username`, required hashed `password`,
required unique lowercased `email`, optional `phone`, optional `dob`,
and the automatic timestamps.  `none` is a field that is unset in the
document; the `password` field holds the bcrypt hash bytes. -/
structure StoredUser where
  _id : Nat
  username : Str
  password : List Nat
  email : Str
  phone : Option Str
  dob : Option Str
  createdAt : Nat
  updatedAt : Nat
deriving DecidableEq, Repr

/-- The Mongoose setter chain for the `email` path (`lowercase: true`,
`trim: true`), applied when the field is assigned or queried. -/
def emailSetter (e : Str) : Str := (trimS e).map Char.toLower

/-- The process environment variables this subsystem reads:
`MONGO_URI`, `JWT_SECRET`, and `JWT_EXPIRES_IN` (modelled in seconds;
absent means the code's `'7d'` default of 604800 seconds). -/
structure Env where
  mongoUri : Option Str
  jwtSecret : Option Str
  jwtExpiresInSeconds : Option Nat
deriving DecidableEq, Repr

/-- Modelled from the spec: token signing by the external jsonwebtoken
library.  The spec requires a signed, time-bounded assertion carrying the
account identifier and an expiration instant, tamper-evident under the
server-held secret: the signature binds the id and expiry payload
together with the secret, so tampering with any part invalidates it. -/
def jwtSign (secret : Str) (id : Nat) (exp : Nat) : Str :=
  str "jwt" ++ '.' :: natToChars id ++ '.' :: natToChars exp ++
    '.' :: (str "sig" ++ natToChars id ++ 'n' :: natToChars exp ++ 'k' :: secret)

/-- Modelled from the spec: token verification by the external
jsonwebtoken library.  Returns the embedded account id when the token is
well-formed, its signature matches the payload under the secret, and it
has not expired; returns `none` (the code's thrown error, caught by the
middleware) on any malformed, tampered, or expired token. -/
def jwtVerify (secret : Str) (now : Nat) (tok : Str) : Option Nat :=
  match splitOnChar tok '.' with
  | [hd, idC, expC, sigC] =>
    if hd == str "jwt" && !idC.isEmpty && idC.all Char.isDigit &&
        !expC.isEmpty && expC.all Char.isDigit &&
        sigC == str "sig" ++ idC ++ 'n' :: expC ++ 'k' :: secret &&
        decide (now ≤ natOfDigits expC) then
      some (natOfDigits idC)
    else none
  | _ => none

/-- `createToken` of routes/auth.js: reads `JWT_SECRET` from the
environment, throws `'JWT_SECRET is not defined'` when absent, and
otherwise signs `{ id: userId }` with expiry `JWT_EXPIRES_IN` defaulting
to 7 days. -/
def createToken (env : Env) (userId : Nat) (now : Nat) : Except Str Str :=
  match env.jwtSecret with
  | none => .error (str "JWT_SECRET is not defined")
  | some secret =>
    .ok (jwtSign secret userId (now + env.jwtExpiresInSeconds.getD 604800))

/-- `connectDB` of db.js: throws when `MONGO_URI` is absent, otherwise
connects.  Network-level connection failures are outside the model; the
result records whether startup's database step succeeds. -/
def connectDB (env : Env) : Bool := env.mongoUri.isSome

/-- `startServer` of server.js: awaits `connectDB` and then listens.  It
performs no check of `JWT_SECRET`; the result records whether the process
starts (a `false` is the code's `process.exit(1)` path). -/
def startServer (env : Env) : Bool := connectDB env

/-- The request body of POST /api/auth/register: a duck-typed JSON
object; `none` is an absent field. -/
structure RegisterReq where
  username : Option Str
  password : Option Str
  email : Option Str
  phone : Option Str
  dob : Option Str
deriving DecidableEq, Repr

/-- The `username` value after express-validator's trim sanitizer (an
absent field is treated as the empty string by the validators). -/
def regUsername (r : RegisterReq) : Str := trimS (r.username.getD [])

/-- The `email` value after express-validator's trim sanitizer. -/
def regEmail (r : RegisterReq) : Str := trimS (r.email.getD [])

/-- The `phone` value after its chain: `optional({ values: 'falsy' })`
bails out on an absent or empty value before the trim sanitizer runs. -/
def regPhone (r : RegisterReq) : Option Str :=
  match r.phone with
  | none => none
  | some [] => some []
  | some p => some (trimS p)

/-- The validation errors of the register chain of routes/auth.js, in
chain order: username notEmpty, password min length 6, email shape,
optional phone shape, optional dob ISO-8601. -/
def registerErrors (r : RegisterReq) : List (Str × Str) :=
  (if (regUsername r).isEmpty then [(str "username", str "Username is required")] else []) ++
  (if (r.password.getD []).length < 6 then
    [(str "password", str "Password must be at least 6 characters")] else []) ++
  (if matchesEmail (regEmail r) then []
   else [(str "email", str "Email must be a valid email address")]) ++
  (match r.phone with
   | none => []
   | some [] => []
   | some p => if matchesPhone (trimS p) then []
      else [(str "phone", str "Phone must be a valid phone number")]) ++
  (match r.dob with
   | none => []
   | some [] => []
   | some d => if isISO8601 d then []
      else [(str "dob", str "Date of birth must be a valid ISO-8601 date")])

/-- The 400 response of `handleValidation` when the chain produced
errors: `{ message: 'Validation failed', errors: [...] }`. -/
def validationFailedResponse (errs : List (Str × Str)) : Response :=
  ⟨400, [(str "message", .jstr (str "Validation failed")), (str "errors", .jerrs errs)]⟩

/-- The generic 500 response of the route handlers' catch blocks. -/
def serverErrorResponse : Response :=
  ⟨500, [(str "message", .jstr (str "Server error"))]⟩

/-- The generic 400 duplicate response of the register handler; by
design it does not reveal which field collided. -/
def duplicateResponse : Response :=
  ⟨400, [(str "message", .jstr (str "User with that username or email already exists")),
         (str "errors", .jerrs [])]⟩

/-- `User.create` of models/User.js as invoked by the register handler:
Mongoose validates the document (required paths, min length of the
still-plaintext password, Date cast of `dob`), then the pre-save hook
hashes the password with a fresh bcrypt salt, and the insert can still
fail with a duplicate-key error on a concurrent collision
(`concurrentDup`).  Field setters: `username` and `phone` are trimmed,
`email` is trimmed and lowercased. -/
def userCreate (store : List StoredUser) (username : Str) (pw : Str) (email : Str)
    (phone dob : Option Str) (newId salt now : Nat) (concurrentDup : Bool) :
    Except Str (StoredUser × List StoredUser) :=
  if concurrentDup then .error (str "E11000 duplicate key error")
  else if dob = some [] then .error (str "Cast to Date failed")
  else if (trimS username).isEmpty || (emailSetter email).isEmpty || pw.length < 6 then
    .error (str "User validation failed")
  else
    let u : StoredUser :=
      { _id := newId
        username := trimS username
        password := bcryptHash salt (strBytes pw)
        email := emailSetter email
        phone := phone.map trimS
        dob := dob
        createdAt := now
        updatedAt := now }
    .ok (u, store ++ [u])

/-- The POST /api/auth/register handler of routes/auth.js: validate,
pre-check uniqueness with `findOne({ $or: [{ email }, { username }] })`,
create the account, and answer 201 with id, username, email and a fresh
token; any thrown error is caught and answered as the generic 500. -/
def register (env : Env) (store : List StoredUser) (r : RegisterReq)
    (newId salt now : Nat) (concurrentDup : Bool) : Response × List StoredUser :=
  let errs := registerErrors r
  if !errs.isEmpty then (validationFailedResponse errs, store)
  else
    let username := regUsername r
    let email := regEmail r
    match store.find? (fun u => u.email == emailSetter email || u.username == username) with
    | some _ => (duplicateResponse, store)
    | none =>
      match userCreate store username (r.password.getD []) email (regPhone r) r.dob
          newId salt now concurrentDup with
      | .error _ => (serverErrorResponse, store)
      | .ok (u, store2) =>
        match createToken env u._id now with
        | .error _ => (serverErrorResponse, store2)
        | .ok tok =>
          (⟨201, [(str "id", .jnum u._id), (str "username", .jstr u.username),
                  (str "email", .jstr u.email), (str "token", .jstr tok)]⟩, store2)

/-- The request body of POST /api/auth/login. -/
structure LoginReq where
  username : Option Str
  email : Option Str
  password : Option Str
deriving DecidableEq, Repr

/-- JavaScript truthiness of an optional string: absent and empty are
falsy. -/
def truthyS : Option Str → Bool
  | none => false
  | some [] => false
  | some (_ :: _) => true

/-- The login `username` value after its chain (`optional` with falsy
bail-out, then the trim sanitizer). -/
def loginUsername (r : LoginReq) : Option Str :=
  match r.username with
  | none => none
  | some [] => some []
  | some u => some (trimS u)

/-- The login `email` value after its chain. -/
def loginEmail (r : LoginReq) : Option Str :=
  match r.email with
  | none => none
  | some [] => some []
  | some e => some (trimS e)

/-- The validation errors of the login chain of routes/auth.js:
password notEmpty, optional username notEmpty after trim, optional email
shape, and the custom whole-body check that at least one identifier is
present. -/
def loginErrors (r : LoginReq) : List (Str × Str) :=
  (if (r.password.getD []).isEmpty then [(str "password", str "Password is required")] else []) ++
  (match r.username with
   | none => []
   | some [] => []
   | some u => if (trimS u).isEmpty then
      [(str "username", str "Username cannot be empty")] else []) ++
  (match r.email with
   | none => []
   | some [] => []
   | some e => if matchesEmail (trimS e) then []
      else [(str "email", str "Email must be a valid email address")]) ++
  (if !truthyS (loginUsername r) && !truthyS (loginEmail r) then
    [([], str "Username or email is required")] else [])

/-- The login handler's account lookup: `username ? { username } :
{ email }` — the username, when truthy, is used and the email ignored;
query values pass through the schema setters. -/
def loginLookup (store : List StoredUser) (r : LoginReq) : Option StoredUser :=
  if truthyS (loginUsername r) then
    store.find? (fun u => u.username == trimS ((loginUsername r).getD []))
  else
    store.find? (fun u => u.email == emailSetter ((loginEmail r).getD []))

/-- The generic 401 response of the login handler, identical for an
unknown identifier and for a failed password comparison. -/
def invalidCredentials : Response :=
  ⟨401, [(str "message", .jstr (str "Invalid credentials"))]⟩

/-- The POST /api/auth/login handler of routes/auth.js.  The second
component of the result records whether `bcrypt.compare` was executed
while handling the request. -/
def login (env : Env) (store : List StoredUser) (r : LoginReq) (now : Nat) :
    Response × Bool :=
  let errs := loginErrors r
  if !errs.isEmpty then (validationFailedResponse errs, false)
  else
    match loginLookup store r with
    | none => (invalidCredentials, false)
    | some u =>
      if bcryptCompare (strBytes (r.password.getD [])) u.password then
        match createToken env u._id now with
        | .error _ => (serverErrorResponse, true)
        | .ok tok =>
          (⟨200, [(str "id", .jnum u._id), (str "username", .jstr u.username),
                  (str "email", .jstr u.email), (str "token", .jstr tok)]⟩, true)
      else (invalidCredentials, true)

/-- The outcome of an authorization middleware: a rejection response, or
the request proceeding with a user bound to the request context. -/
inductive AuthResult where
  | reject (r : Response)
  | accept (u : StoredUser)
deriving DecidableEq, Repr

/-- `requireAuth` of routes/profile.js: extracts the bearer token from
the Authorization header (401 `'Not authorized, token missing'` when the
header does not start with `'Bearer '`), verifies it (any thrown error —
missing JWT_SECRET, malformed, tampered, or expired token — is caught as
401 `'Not authorized, token invalid'`), resolves the account by the
decoded id (401 `'Not authorized'` when it no longer resolves), and
otherwise attaches the user. -/
def requireAuth (env : Env) (store : List StoredUser) (now : Nat)
    (authHeader : Option Str) : AuthResult :=
  let h := authHeader.getD []
  if !strStartsWith h (str "Bearer ") then
    .reject ⟨401, [(str "message", .jstr (str "Not authorized, token missing"))]⟩
  else
    let token := (splitOnChar h ' ').getD 1 []
    match env.jwtSecret with
    | none =>
      .reject ⟨401, [(str "message", .jstr (str "Not authorized, token invalid"))]⟩
    | some secret =>
      match jwtVerify secret now token with
      | none =>
        .reject ⟨401, [(str "message", .jstr (str "Not authorized, token invalid"))]⟩
      | some id =>
        match store.find? (fun u => u._id == id) with
        | none => .reject ⟨401, [(str "message", .jstr (str "Not authorized"))]⟩
        | some u => .accept u

/-- The profile view serialized by GET /api/profile and by the PUT
handler's success path: an unset phone is rendered as the empty string
and an unset dob as `null`. -/
def profileJson (u : StoredUser) : List (Str × JVal) :=
  [(str "id", .jnum u._id),
   (str "username", .jstr u.username),
   (str "email", .jstr u.email),
   (str "phone", .jstr (u.phone.getD [])),
   (str "dob", match u.dob with | some d => .jstr d | none => .jnull),
   (str "createdAt", .jnum u.createdAt),
   (str "updatedAt", .jnum u.updatedAt)]

/-- The GET /api/profile handler of routes/profile.js, applied to the
user attached by `requireAuth`. -/
def getProfile (u : StoredUser) : Response := ⟨200, profileJson u⟩

/-- The request body of PUT /api/profile. -/
structure UpdateReq where
  email : Option Str
  phone : Option Str
  dob : Option Str
deriving DecidableEq, Repr

/-- The update `email` value after its chain (`optional` with falsy
bail-out, then the trim sanitizer). -/
def updEmail (r : UpdateReq) : Option Str :=
  match r.email with
  | none => none
  | some [] => some []
  | some e => some (trimS e)

/-- The update `phone` value after its chain. -/
def updPhone (r : UpdateReq) : Option Str :=
  match r.phone with
  | none => none
  | some [] => some []
  | some p => some (trimS p)

/-- The validation errors of the PUT /api/profile chain of
routes/profile.js: each of email, phone, dob is optional with falsy
bail-out, so an absent or empty value skips its format check. -/
def updateErrors (r : UpdateReq) : List (Str × Str) :=
  (match r.email with
   | none => []
   | some [] => []
   | some e => if matchesEmail (trimS e) then []
      else [(str "email", str "Email must be a valid email address")]) ++
  (match r.phone with
   | none => []
   | some [] => []
   | some p => if matchesPhone (trimS p) then []
      else [(str "phone", str "Phone must be a valid phone number")]) ++
  (match r.dob with
   | none => []
   | some [] => []
   | some d => if isISO8601 d then []
      else [(str "dob", str "Date of birth must be a valid ISO-8601 date")])

/-- The field assignments of the PUT /api/profile handler: each field is
assigned only when present (`!== undefined`); `email` and `phone` pass
through their schema setters, and `dob` is set to the parsed date when
truthy and to `null` (unset) when empty. -/
def applyUpdate (u : StoredUser) (r : UpdateReq) : StoredUser :=
  let u1 := match updEmail r with
    | none => u
    | some e => { u with email := emailSetter e }
  let u2 := match updPhone r with
    | none => u1
    | some p => { u1 with phone := some (trimS p) }
  match r.dob with
  | none => u2
  | some [] => { u2 with dob := none }
  | some d => { u2 with dob := some d }

/-- Mongoose validation run by `save()` in models/User.js: the required
paths `username`, `password`, and `email` must be non-empty. -/
def userSaveValid (u : StoredUser) : Bool :=
  !(trimS u.username).isEmpty && !u.password.isEmpty && !u.email.isEmpty

/-- The unique indexes of models/User.js (`unique: true` on `username`
and `email`): the MongoDB write of a document fails with the
duplicate-key error E11000 when a different document of the collection
already holds the same username or the same email. -/
def uniqueIndexOk (store : List StoredUser) (u : StoredUser) : Bool :=
  store.all (fun x =>
    x._id == u._id || (!(x.username == u.username) && !(x.email == u.email)))

/-- The PUT /api/profile handler of routes/profile.js: validate, assign
the provided fields on the attached user, and `save()`; a save that
fails — Mongoose validation of the required paths, or the store's
unique-index duplicate-key error on the written username or email — is
caught and answered as the generic 500 with the store unchanged, while a
successful save refreshes `updatedAt` and answers with the refreshed
profile view. -/
def profileUpdate (store : List StoredUser) (u : StoredUser) (r : UpdateReq)
    (now : Nat) : Response × List StoredUser :=
  let errs := updateErrors r
  if !errs.isEmpty then (validationFailedResponse errs, store)
  else
    let u2 := applyUpdate u r
    if userSaveValid u2 && uniqueIndexOk store u2 then
      let saved := { u2 with updatedAt := now }
      (⟨200, profileJson saved⟩,
       store.map (fun x => if x._id == saved._id then saved else x))
    else (serverErrorResponse, store)

/-- A user document as selected by `.select('-password')` in
src/middleware/authMiddleware.js: every schema path except the
password. -/
structure ClientUser where
  _id : Nat
  username : Str
  email : Str
  phone : Option Str
  dob : Option Str
  createdAt : Nat
  updatedAt : Nat
deriving DecidableEq, Repr

/-- The projection performed by `.select('-password')`. -/
def selectNoPassword (u : StoredUser) : ClientUser :=
  { _id := u._id, username := u.username, email := u.email, phone := u.phone,
    dob := u.dob, createdAt := u.createdAt, updatedAt := u.updatedAt }

/-- Serialization of a password-less user document by `res.json`: the
schema paths present on the document. -/
def clientUserJson (c : ClientUser) : List (Str × JVal) :=
  [(str "id", .jnum c._id),
   (str "username", .jstr c.username),
   (str "email", .jstr c.email),
   (str "phone", match c.phone with | some p => .jstr p | none => .jnull),
   (str "dob", match c.dob with | some d => .jstr d | none => .jnull),
   (str "createdAt", .jnum c.createdAt),
   (str "updatedAt", .jnum c.updatedAt)]

/-- `getProfile` of src/controllers/userController.js: answers 401 when
no user is attached to the request, and otherwise serializes the
attached document (which the `protect` middleware fetched with
`.select('-password')`). -/
def getProfileController (reqUser : Option ClientUser) : Response :=
  match reqUser with
  | none => ⟨401, [(str "message", .jstr (str "Not authorized"))]⟩
  | some u => ⟨200, clientUserJson u⟩

/-- The `matchPassword` method of models/User.js: compares an entered
plaintext against the stored hash with bcrypt. -/
def matchPassword (u : StoredUser) (entered : Str) : Bool :=
  bcryptCompare (strBytes entered) u.password

/-- C4: for every valid secret, the bcrypt hash differs from the secret,
verification of the secret against its own hash succeeds (both via
bcrypt.compare and via the matchPassword method of a document whose
pre-save hook hashed that secret), and two hash calls with distinct
fresh salts produce unequal outputs. -/
theorem c4_secret_hasher_algebra (pw : List Nat) (s s1 s2 : Nat)
    (hlen : 6 ≤ pw.length) (hsalt : s1 ≠ s2) :
    bcryptHash s pw ≠ pw ∧
    bcryptCompare pw (bcryptHash s pw) = true ∧
    (∀ (pwS : Str) (u : StoredUser),
      matchPassword { u with password := bcryptHash s (strBytes pwS) } pwS = true) ∧
    bcryptHash s1 pw ≠ bcryptHash s2 pw := by
  refine ⟨?_, ?_, ?_, ?_⟩
  · intro h
    have hl := congrArg List.length h
    simp [bcryptHash] at hl
    omega
  · simp [bcryptCompare, bcryptHash]
  · intro pwS u
    simp [matchPassword, bcryptCompare, bcryptHash]
  · intro h
    simp [bcryptHash] at h
    exact hsalt h.1

theorem c4_witness :
    6 ≤ ([97, 98, 99, 100, 101, 102] : List Nat).length ∧ (0 : Nat) ≠ 1 ∧
    (bcryptHash 0 [97, 98, 99, 100, 101, 102] ≠ [97, 98, 99, 100, 101, 102] ∧
     bcryptCompare [97, 98, 99, 100, 101, 102]
       (bcryptHash 0 [97, 98, 99, 100, 101, 102]) = true ∧
     (∀ (pwS : Str) (u : StoredUser),
       matchPassword { u with password := bcryptHash 0 (strBytes pwS) } pwS = true) ∧
     bcryptHash 0 [97, 98, 99, 100, 101, 102] ≠ bcryptHash 1 [97, 98, 99, 100, 101, 102]) :=
  ⟨by decide, by decide,
   c4_secret_hasher_algebra [97, 98, 99, 100, 101, 102] 0 0 1 (by decide) (by decide)⟩

/-- C1: no operation that answers a caller — registration, login, get
profile, update profile (both route files and the controller) — ever
includes the stored `password` hash field in its serialized response
body. -/
theorem c1_password_never_serialized :
    (∀ env store r newId salt now dup,
      str "password" ∉ ((register env store r newId salt now dup).1.body.map Prod.fst)) ∧
    (∀ env store r now,
      str "password" ∉ ((login env store r now).1.body.map Prod.fst)) ∧
    (∀ u, str "password" ∉ ((getProfile u).body.map Prod.fst)) ∧
    (∀ store u r now,
      str "password" ∉ ((profileUpdate store u r now).1.body.map Prod.fst)) ∧
    (∀ mu, str "password" ∉ ((getProfileController mu).body.map Prod.fst)) := by
  refine ⟨?_, ?_, ?_, ?_, ?_⟩
  · intro env store r newId salt now dup
    unfold register
    dsimp only
    repeat' split
    all_goals simp [validationFailedResponse, duplicateResponse, serverErrorResponse, str]
  · intro env store r now
    unfold login
    dsimp only
    repeat' split
    all_goals simp [validationFailedResponse, invalidCredentials, serverErrorResponse, str]
  · intro u
    simp [getProfile, profileJson, str]
  · intro store u r now
    unfold profileUpdate
    dsimp only
    repeat' split
    all_goals simp [validationFailedResponse, serverErrorResponse, profileJson, str]
  · intro mu
    cases mu <;> simp [getProfileController, clientUserJson, str]

/-- C2 counterexample: the Authorization Gate's rejection messages are
not identical across rejection cases — an absent token is rejected with
'Not authorized, token missing' while a valid token whose account id no
longer resolves is rejected with the bare 'Not authorized'. -/
theorem c2_counterexample :
    requireAuth ⟨some (str "m"), some (str "k"), none⟩ [] 0 none =
      .reject ⟨401, [(str "message", .jstr (str "Not authorized, token missing"))]⟩ ∧
    requireAuth ⟨some (str "m"), some (str "k"), none⟩ [] 0
        (some (str "Bearer " ++ jwtSign (str "k") 5 9)) =
      .reject ⟨401, [(str "message", .jstr (str "Not authorized"))]⟩ ∧
    str "Not authorized, token missing" ≠ str "Not authorized" := by
  refine ⟨by decide, by decide, by decide⟩

/-- C2 amended: every rejection by `requireAuth` carries status 401 and
one of three fixed messages, each beginning with 'Not authorized' ('Not
authorized, token missing' for an absent or malformed carrier, 'Not
authorized, token invalid' for any verification failure, bare 'Not
authorized' for an id that no longer resolves); the messages share the
'Not authorized' stem but are not a single identical string. -/
theorem c2_rejections_uniform_401 (env : Env) (store : List StoredUser)
    (now : Nat) (hdr : Option Str) (r : Response)
    (h : requireAuth env store now hdr = .reject r) :
    r.status = 401 ∧
    (r.body = [(str "message", .jstr (str "Not authorized, token missing"))] ∨
     r.body = [(str "message", .jstr (str "Not authorized, token invalid"))] ∨
     r.body = [(str "message", .jstr (str "Not authorized"))]) ∧
    (∀ m, (str "message", JVal.jstr m) ∈ r.body → strStartsWith m (str "Not authorized") = true) := by
  unfold requireAuth at h
  dsimp only at h
  split at h
  · cases h
    refine ⟨rfl, .inl rfl, ?_⟩
    intro m hm
    simp at hm
    cases hm
    decide
  · split at h
    · cases h
      refine ⟨rfl, .inr (.inl rfl), ?_⟩
      intro m hm
      simp at hm
      cases hm
      decide
    · split at h
      · cases h
        refine ⟨rfl, .inr (.inl rfl), ?_⟩
        intro m hm
        simp at hm
        cases hm
        decide
      · split at h
        · cases h
          refine ⟨rfl, .inr (.inr rfl), ?_⟩
          intro m hm
          simp at hm
          cases hm
          decide
        · cases h

/-- C2 witness: the amended statement instantiated at a request with no
Authorization header. -/
theorem c2_witness :
    (⟨401, [(str "message", .jstr (str "Not authorized, token missing"))]⟩ : Response).status = 401 ∧
    ((⟨401, [(str "message", .jstr (str "Not authorized, token missing"))]⟩ : Response).body =
       [(str "message", .jstr (str "Not authorized, token missing"))] ∨
     (⟨401, [(str "message", .jstr (str "Not authorized, token missing"))]⟩ : Response).body =
       [(str "message", .jstr (str "Not authorized, token invalid"))] ∨
     (⟨401, [(str "message", .jstr (str "Not authorized, token missing"))]⟩ : Response).body =
       [(str "message", .jstr (str "Not authorized"))]) ∧
    (∀ m, (str "message", JVal.jstr m) ∈
        (⟨401, [(str "message", .jstr (str "Not authorized, token missing"))]⟩ : Response).body →
      strStartsWith m (str "Not authorized") = true) :=
  c2_rejections_uniform_401 ⟨none, none, none⟩ [] 0 none _ (by decide)

/-- C3: for every login request that passes validation, an identifier
matching no account and an account whose secret comparison fails produce
the identical response: status 401 with the generic 'Invalid
credentials' message. -/
theorem c3_login_enumeration_resistant (env : Env) (store : List StoredUser)
    (r : LoginReq) (now : Nat) (hv : loginErrors r = []) :
    (loginLookup store r = none → (login env store r now).1 = invalidCredentials) ∧
    (∀ u, loginLookup store r = some u →
      bcryptCompare (strBytes (r.password.getD [])) u.password = false →
      (login env store r now).1 = invalidCredentials) := by
  constructor
  · intro hnone
    simp [login, hv, hnone]
  · intro u hu hcmp
    simp [login, hv, hu, hcmp]

/-- C3 witness: login against an empty store with a validated request
yields the generic invalid-credentials response. -/
theorem c3_witness :
    (login ⟨none, none, none⟩ [] ⟨some (str "alice"), none, some (str "secret1")⟩ 0).1 =
      invalidCredentials :=
  (c3_login_enumeration_resistant ⟨none, none, none⟩ []
    ⟨some (str "alice"), none, some (str "secret1")⟩ 0 (by decide)).1 (by decide)

/-- C5 counterexample: updating the profile with `phone` present as the
empty string stores the empty string on the document rather than
clearing the field to the unset state — the stored value is `some []`,
which is distinguished from `none`. -/
theorem c5_counterexample :
    ((profileUpdate [⟨1, str "alice", [1], str "a@x.com", some (str "1234567"), none, 0, 0⟩]
        ⟨1, str "alice", [1], str "a@x.com", some (str "1234567"), none, 0, 0⟩
        ⟨none, some [], none⟩ 5).2.map StoredUser.phone) = [some []] ∧
    (some [] : Option Str) ≠ none := by
  refine ⟨by decide, by decide⟩

/-- C5 amended: for a validated update request whose save succeeds (the
required paths are present and the written username and email collide
with no other account under the unique indexes), a field absent from the
request leaves that stored field unchanged, and an empty `dob` clears
the field to the unset state; but an empty `phone` is stored as the
empty string rather than cleared to the unset state. -/
theorem c5_partial_update_semantics (store : List StoredUser) (u : StoredUser)
    (r : UpdateReq) (now : Nat) (hv : updateErrors r = [])
    (hs : userSaveValid (applyUpdate u r) = true)
    (hd : uniqueIndexOk store (applyUpdate u r) = true) :
    ((profileUpdate store u r now).2 =
      store.map (fun x => if x._id == (applyUpdate u r)._id
        then { applyUpdate u r with updatedAt := now } else x)) ∧
    (r.email = none → (applyUpdate u r).email = u.email) ∧
    (r.phone = none → (applyUpdate u r).phone = u.phone) ∧
    (r.dob = none → (applyUpdate u r).dob = u.dob) ∧
    (r.dob = some [] → (applyUpdate u r).dob = none) ∧
    (r.phone = some [] → (applyUpdate u r).phone = some []) := by
  obtain ⟨re, rp, rd⟩ := r
  refine ⟨by simp [profileUpdate, hv, hs, hd], ?_, ?_, ?_, ?_, ?_⟩ <;> intro h <;>
    simp only [UpdateReq.email, UpdateReq.phone, UpdateReq.dob] at h <;>
    rcases re with _ | ⟨_ | ⟨c1, cs1⟩⟩ <;>
    rcases rp with _ | ⟨_ | ⟨c2, cs2⟩⟩ <;>
    rcases rd with _ | ⟨_ | ⟨c3, cs3⟩⟩ <;>
    simp_all [applyUpdate, updEmail, updPhone, trimS]

/-- C5 witness: the amended statement instantiated at an update that
supplies an empty `dob` and an empty `phone` and omits `email`. -/
theorem c5_witness :
    (applyUpdate ⟨2, str "bob", [2], str "b@x.com", some (str "5551234"), some (str "1990-01-02"), 0, 0⟩
      ⟨none, some [], some []⟩).dob = none ∧
    (applyUpdate ⟨2, str "bob", [2], str "b@x.com", some (str "5551234"), some (str "1990-01-02"), 0, 0⟩
      ⟨none, some [], some []⟩).phone = some [] ∧
    (applyUpdate ⟨2, str "bob", [2], str "b@x.com", some (str "5551234"), some (str "1990-01-02"), 0, 0⟩
      ⟨none, some [], some []⟩).email =
      (⟨2, str "bob", [2], str "b@x.com", some (str "5551234"), some (str "1990-01-02"), 0, 0⟩ : StoredUser).email :=
  ⟨(c5_partial_update_semantics []
      ⟨2, str "bob", [2], str "b@x.com", some (str "5551234"), some (str "1990-01-02"), 0, 0⟩
      ⟨none, some [], some []⟩ 3 (by decide) (by decide) (by decide)).2.2.2.2.1 rfl,
   (c5_partial_update_semantics []
      ⟨2, str "bob", [2], str "b@x.com", some (str "5551234"), some (str "1990-01-02"), 0, 0⟩
      ⟨none, some [], some []⟩ 3 (by decide) (by decide) (by decide)).2.2.2.2.2 rfl,
   (c5_partial_update_semantics []
      ⟨2, str "bob", [2], str "b@x.com", some (str "5551234"), some (str "1990-01-02"), 0, 0⟩
      ⟨none, some [], some []⟩ 3 (by decide) (by decide) (by decide)).2.1 rfl⟩

/-- C6 counterexample: with an empty store (so the uniqueness pre-check
passes) and a concurrent duplicate-key failure at create, the register
handler answers the generic 500 'Server error', not the 400 duplicate
response. -/
theorem c6_counterexample :
    (register ⟨some (str "m"), some (str "k"), none⟩ []
        ⟨some (str "alice"), some (str "abcdef"), some (str "a@x.com"), none, none⟩
        1 0 0 true).1 = serverErrorResponse ∧
    serverErrorResponse ≠ duplicateResponse := by
  refine ⟨by decide, by decide⟩

/-- C6 amended: when the uniqueness pre-check passes but the store's
create fails with the duplicate-key error of a concurrent collision, the
register handler's catch-all surfaces the failure as the generic 500
'Server error' response (leaving the store unchanged), not as the 400
duplicate response. -/
theorem c6_race_duplicate_surfaces_as_500 (env : Env) (store : List StoredUser)
    (r : RegisterReq) (newId salt now : Nat) (hv : registerErrors r = [])
    (hpre : store.find? (fun u => u.email == emailSetter (regEmail r) ||
      u.username == regUsername r) = none) :
    (register env store r newId salt now true).1 = serverErrorResponse ∧
    (register env store r newId salt now true).2 = store ∧
    (register env store r newId salt now true).1 ≠ duplicateResponse := by
  have h : register env store r newId salt now true = (serverErrorResponse, store) := by
    simp [register, hv, hpre, userCreate]
  refine ⟨by simp [h], by simp [h], by simp [h, serverErrorResponse, duplicateResponse]⟩

/-- C6 witness: the amended statement instantiated at a registration of
'bob' against an empty store with the concurrent-duplicate flag set. -/
theorem c6_witness :
    (register ⟨some (str "m"), some (str "k"), none⟩ []
        ⟨some (str "bob"), some (str "hunter2x"), some (str "b@x.com"), none, none⟩
        1 0 0 true).1 = serverErrorResponse ∧
    (register ⟨some (str "m"), some (str "k"), none⟩ []
        ⟨some (str "bob"), some (str "hunter2x"), some (str "b@x.com"), none, none⟩
        1 0 0 true).2 = [] ∧
    (register ⟨some (str "m"), some (str "k"), none⟩ []
        ⟨some (str "bob"), some (str "hunter2x"), some (str "b@x.com"), none, none⟩
        1 0 0 true).1 ≠ duplicateResponse :=
  c6_race_duplicate_surfaces_as_500 ⟨some (str "m"), some (str "k"), none⟩ []
    ⟨some (str "bob"), some (str "hunter2x"), some (str "b@x.com"), none, none⟩
    1 0 0 (by decide) (by decide)

/-- C7 counterexample: with the database URI configured but the signing
secret absent, startup succeeds, and the absence is instead detected at
token issuance, where createToken throws. -/
theorem c7_counterexample :
    startServer ⟨some (str "mongodb"), none, none⟩ = true ∧
    createToken ⟨some (str "mongodb"), none, none⟩ 7 0 =
      .error (str "JWT_SECRET is not defined") := by
  refine ⟨by decide, rfl⟩

/-- C7 amended: startup checks only the database URI and never the
signing secret, so a process with JWT_SECRET absent starts normally;
the absence is first detected at use — token issuance throws 'JWT_SECRET
is not defined' and token verification rejects the request with 401. -/
theorem c7_secret_absence_detected_at_use (env : Env) (store : List StoredUser)
    (id now now2 : Nat) (h : env.jwtSecret = none) :
    startServer env = env.mongoUri.isSome ∧
    createToken env id now = .error (str "JWT_SECRET is not defined") ∧
    requireAuth env store now2 (some (str "Bearer t")) =
      .reject ⟨401, [(str "message", .jstr (str "Not authorized, token invalid"))]⟩ := by
  refine ⟨rfl, by simp [createToken, h], ?_⟩
  unfold requireAuth
  rw [h]
  dsimp only
  norm_num [strStartsWith, str]

/-- C7 witness: the amended statement instantiated at an environment
with a database URI and no signing secret. -/
theorem c7_witness :
    startServer ⟨some (str "mongodb"), none, none⟩ =
      (⟨some (str "mongodb"), none, none⟩ : Env).mongoUri.isSome ∧
    createToken ⟨some (str "mongodb"), none, none⟩ 7 0 =
      .error (str "JWT_SECRET is not defined") ∧
    requireAuth ⟨some (str "mongodb"), none, none⟩ [] 0 (some (str "Bearer t")) =
      .reject ⟨401, [(str "message", .jstr (str "Not authorized, token invalid"))]⟩ :=
  c7_secret_absence_detected_at_use ⟨some (str "mongodb"), none, none⟩ [] 7 0 0 rfl

/-- C8 counterexample: a validated login for an identifier matching no
account returns the generic 401 immediately with the
secret-verification step never executed (and no substituted delay). -/
theorem c8_counterexample :
    login ⟨some (str "m"), some (str "k"), none⟩ []
      ⟨some (str "alice"), none, some (str "secret1")⟩ 0 =
    (invalidCredentials, false) := by decide

/-- C8 amended: when the identifier matches no account, the login
handler answers the generic 401 without running bcrypt.compare and
without any substituted fixed-cost step; the comparison runs exactly
when an account was found. -/
theorem c8_no_verify_on_absent_account (env : Env) (store : List StoredUser)
    (r : LoginReq) (now : Nat) (hv : loginErrors r = []) :
    (loginLookup store r = none → login env store r now = (invalidCredentials, false)) ∧
    (∀ u, loginLookup store r = some u → (login env store r now).2 = true) := by
  constructor
  · intro hnone
    simp [login, hv, hnone]
  · intro u hu
    unfold login
    dsimp only
    rw [hv, hu]
    dsimp only
    split
    · simp_all
    · split
      · split <;> rfl
      · rfl

/-- C8 witness: the amended statement's first part instantiated at an
empty store. -/
theorem c8_witness :
    login ⟨some (str "m"), some (str "k"), none⟩ []
      ⟨none, some (str "b@x.com"), some (str "secret1")⟩ 0 =
    (invalidCredentials, false) :=
  (c8_no_verify_on_absent_account ⟨some (str "m"), some (str "k"), none⟩ []
    ⟨none, some (str "b@x.com"), some (str "secret1")⟩ 0 (by decide)).1 (by decide)

/-- C9: when a validated login request carries a truthy username, the
lookup queries by username only; even if the supplied email matches an
existing account, a username matching no account yields the generic
invalid-credentials failure. -/
theorem c9_login_prefers_username (env : Env) (store : List StoredUser)
    (r : LoginReq) (now : Nat) (hv : loginErrors r = [])
    (hu : truthyS (loginUsername r) = true)
    (hn : store.find? (fun u => u.username == trimS ((loginUsername r).getD [])) = none)
    (he : store.any (fun u => u.email == emailSetter ((loginEmail r).getD [])) = true) :
    (login env store r now).1 = invalidCredentials := by
  have hl : loginLookup store r = none := by
    simp only [loginLookup, hu, if_true]
    exact hn
  simp [login, hv, hl]

/-- C9 witness: a store holding an account with email b@x.com; the login
supplies that email together with an unknown username and is rejected
with invalid credentials. -/
theorem c9_witness :
    (login ⟨some (str "m"), some (str "k"), none⟩
      [⟨1, str "alice", [1], str "b@x.com", none, none, 0, 0⟩]
      ⟨some (str "bob"), some (str "b@x.com"), some (str "secret1")⟩ 0).1 =
    invalidCredentials :=
  c9_login_prefers_username ⟨some (str "m"), some (str "k"), none⟩
    [⟨1, str "alice", [1], str "b@x.com", none, none, 0, 0⟩]
    ⟨some (str "bob"), some (str "b@x.com"), some (str "secret1")⟩ 0
    (by decide) (by decide) (by decide) (by decide)

/-- C10: a validated profile update that supplies email as the empty
string passes validation (falsy values skip the format check), the
handler assigns the empty string, and the save then fails the required
email constraint, so the operation answers the generic 500 'Server
error' and persists none of the requested changes. -/
theorem c10_empty_email_update_500 (store : List StoredUser) (u : StoredUser)
    (r : UpdateReq) (now : Nat) (he : r.email = some [])
    (hv : updateErrors r = []) :
    (applyUpdate u r).email = [] ∧
    profileUpdate store u r now = (serverErrorResponse, store) := by
  obtain ⟨re, rp, rd⟩ := r
  simp only [UpdateReq.email] at he
  subst he
  have hemail : (applyUpdate u ⟨some [], rp, rd⟩).email = [] := by
    rcases rp with _ | ⟨_ | ⟨c2, cs2⟩⟩ <;>
    rcases rd with _ | ⟨_ | ⟨c3, cs3⟩⟩ <;>
    simp [applyUpdate, updEmail, updPhone, emailSetter, trimS]
  have hsv : userSaveValid (applyUpdate u ⟨some [], rp, rd⟩) = false := by
    simp [userSaveValid, hemail]
  refine ⟨hemail, ?_⟩
  simp [profileUpdate, hv, hsv]

/-- C10 witness: the statement instantiated at a single-user store and
an update request carrying only an empty email. -/
theorem c10_witness :
    (applyUpdate ⟨1, str "alice", [1], str "a@x.com", none, none, 0, 0⟩
      ⟨some [], none, none⟩).email = [] ∧
    profileUpdate [⟨1, str "alice", [1], str "a@x.com", none, none, 0, 0⟩]
      ⟨1, str "alice", [1], str "a@x.com", none, none, 0, 0⟩
      ⟨some [], none, none⟩ 9 =
    (serverErrorResponse, [⟨1, str "alice", [1], str "a@x.com", none, none, 0, 0⟩]) :=
  c10_empty_email_update_500 [⟨1, str "alice", [1], str "a@x.com", none, none, 0, 0⟩]
    ⟨1, str "alice", [1], str "a@x.com", none, none, 0, 0⟩
    ⟨some [], none, none⟩ 9 rfl (by decide)
